import Mathlib

/-!
Verification of the shex Command Execution Engine (src/shex/tools.py and
src/shex/spinner.py) against its natural-language specification.

The development shallowly embeds:
* `process_carriage_return` — the Line-Render Normalizer (tools.py, lines 25-71),
  a pure text transform, embedded directly over `List Char`;
* `execute_with_pty` / `execute_command` — the Execution Engine (tools.py,
  lines 74-353).  The effectful parts (process spawn, the select loop, terminal
  raw mode) are embedded by explicit outcome parameters and an event trace that
  records the externally visible actions in program order;
* the `Spinner` status animation (spinner.py), embedded as a state machine whose
  background cadence thread is a program-counter step function, so that the
  interleaving between `stop()` and an in-flight cadence iteration is explicit.
-/

/-! ## Line-Render Normalizer (tools.py, `process_carriage_return`) -/

/-- One step of Python's `'\n'.join(lines)`: join a list of lines with a single
newline character between consecutive lines (no trailing newline). -/
def lineJoin : List (List Char) → List Char
  | [] => []
  | [l] => l
  | l :: ls => l ++ '\n' :: lineJoin ls

/-- The scanning loop of `process_carriage_return` (tools.py, lines 45-69).
State: `lines` (completed lines) and `cur` (the current line being built).
* `'\n'`: append `cur` to `lines`, start a new empty line;
* `'\r'` followed by `'\n'`: CRLF, treated as a single terminator (the `'\n'`
  is skipped);
* a bare `'\r'`: reset `cur` to empty (cursor returns to column zero);
* any other character: append it to `cur`.
At the end of input, `cur` is appended only when non-empty
(Python's `if current_line:`). -/
def pcrLoop : List Char → List (List Char) → List Char → List (List Char)
  | [], lines, cur => if cur = [] then lines else lines ++ [cur]
  | c :: rest, lines, cur =>
    if c = '\n' then
      pcrLoop rest (lines ++ [cur]) []
    else if c = '\r' then
      match rest with
      | c2 :: rest2 =>
        if c2 = '\n' then pcrLoop rest2 (lines ++ [cur]) []
        else pcrLoop (c2 :: rest2) lines []
      | [] => pcrLoop [] lines []
    else
      pcrLoop rest lines (cur ++ [c])

/-- `process_carriage_return` (tools.py, lines 25-71): if the text holds no
carriage return it is returned unchanged; otherwise the scanning loop runs and
the collected lines are joined with `'\n'`. -/
def process_carriage_return (text : String) : String :=
  if ('\r' : Char) ∉ text.data then text
  else String.mk (lineJoin (pcrLoop text.data [] []))

/-! ### Step equations for `pcrLoop` -/

theorem pcrLoop_nil (lines : List (List Char)) (cur : List Char) :
    pcrLoop [] lines cur = if cur = [] then lines else lines ++ [cur] := rfl

theorem pcrLoop_cons_nl (rest : List Char) (lines : List (List Char)) (cur : List Char) :
    pcrLoop ('\n' :: rest) lines cur = pcrLoop rest (lines ++ [cur]) [] := by
  rw [pcrLoop.eq_def]
  simp

theorem pcrLoop_crlf (rest : List Char) (lines : List (List Char)) (cur : List Char) :
    pcrLoop ('\r' :: '\n' :: rest) lines cur = pcrLoop rest (lines ++ [cur]) [] := rfl

theorem pcrLoop_cr_last (lines : List (List Char)) (cur : List Char) :
    pcrLoop ['\r'] lines cur = pcrLoop [] lines [] := rfl

theorem pcrLoop_cr_other (c2 : Char) (rest2 : List Char) (lines : List (List Char))
    (cur : List Char) (h : c2 ≠ '\n') :
    pcrLoop ('\r' :: c2 :: rest2) lines cur = pcrLoop (c2 :: rest2) lines [] := by
  rw [pcrLoop.eq_def]
  simp [h]

theorem pcrLoop_cons_other (c : Char) (rest : List Char) (lines : List (List Char))
    (cur : List Char) (h1 : c ≠ '\n') (h2 : c ≠ '\r') :
    pcrLoop (c :: rest) lines cur = pcrLoop rest lines (cur ++ [c]) := by
  rw [pcrLoop.eq_def]
  simp [h1, h2]

/-- Every line produced by the scanning loop is free of carriage returns,
provided the accumulated state is: `cur` only ever grows by characters that are
neither `'\n'` nor `'\r'`, and `lines` only ever receives snapshots of `cur`. -/
theorem pcrLoop_no_cr (input : List Char) (lines : List (List Char)) (cur : List Char) :
    (∀ l ∈ lines, ('\r' : Char) ∉ l) → ('\r' : Char) ∉ cur →
    ∀ l ∈ pcrLoop input lines cur, ('\r' : Char) ∉ l := by
  induction input, lines, cur using pcrLoop.induct with
  | case1 lines =>
    intro hl _
    simpa [pcrLoop_nil] using hl
  | case2 lines cur hne =>
    intro hl hc l hm
    rw [pcrLoop_nil, if_neg hne] at hm
    rcases List.mem_append.mp hm with h | h
    · exact hl l h
    · rw [List.mem_singleton.mp h]
      exact hc
  | case3 rest lines cur ih =>
    intro hl hc
    rw [pcrLoop_cons_nl]
    refine ih ?_ (by simp)
    intro l hm
    rcases List.mem_append.mp hm with h | h
    · exact hl l h
    · rw [List.mem_singleton.mp h]
      exact hc
  | case4 lines cur rest2 _ ih =>
    intro hl hc
    rw [pcrLoop_crlf]
    refine ih ?_ (by simp)
    intro l hm
    rcases List.mem_append.mp hm with h | h
    · exact hl l h
    · rw [List.mem_singleton.mp h]
      exact hc
  | case5 lines cur c2 rest2 hne _ ih =>
    intro hl _
    rw [pcrLoop_cr_other c2 rest2 lines cur hne]
    exact ih hl (by simp)
  | case6 lines cur _ ih =>
    intro hl _
    rw [pcrLoop_cr_last]
    exact ih hl (by simp)
  | case7 c rest lines cur h1 h2 ih =>
    intro hl hc
    rw [pcrLoop_cons_other c rest lines cur h1 h2]
    refine ih hl ?_
    intro hmem
    rcases List.mem_append.mp hmem with h | h
    · exact hc h
    · exact h2 (List.mem_singleton.mp h).symm

/-- Joining carriage-return-free lines with `'\n'` yields a
carriage-return-free string. -/
theorem lineJoin_no_cr (ls : List (List Char)) :
    (∀ l ∈ ls, ('\r' : Char) ∉ l) → ('\r' : Char) ∉ lineJoin ls := by
  induction ls using lineJoin.induct with
  | case1 =>
    intro _
    simp [lineJoin]
  | case2 l =>
    intro h
    simpa [lineJoin] using h l (by simp)
  | case3 l ls hne ih =>
    intro h
    obtain ⟨l2, ls2, rfl⟩ : ∃ l2 ls2, ls = l2 :: ls2 := by
      cases ls with
      | nil => exact absurd rfl hne
      | cons a b => exact ⟨a, b, rfl⟩
    have hstep : lineJoin (l :: l2 :: ls2) = l ++ '\n' :: lineJoin (l2 :: ls2) := rfl
    rw [hstep]
    intro hmem
    rcases List.mem_append.mp hmem with hm | hm
    · exact h l (by simp) hm
    · rcases List.mem_cons.mp hm with hm | hm
      · exact absurd hm (by decide)
      · exact ih (fun x hx => h x (List.mem_cons_of_mem l hx)) hm

/-- The output of `process_carriage_return` never contains a carriage return:
either the input had none (returned verbatim), or every `'\r'` was consumed by
the scanning loop. -/
theorem pcr_data_no_cr (text : String) :
    ('\r' : Char) ∉ (process_carriage_return text).data := by
  rw [process_carriage_return]
  split
  · assumption
  · exact lineJoin_no_cr _ (pcrLoop_no_cr text.data [] [] (by simp) (by simp))

/-! ## Claims about the Line-Render Normalizer -/

/-- C1 counterexample: the claim states
`process_carriage_return "A\rB\n" = "B\n"`, but the code joins the collected
lines with `'\n'.join(...)` and so drops the trailing line terminator: the
actual result is `"B"`. -/
theorem C1_counterexample :
    process_carriage_return "A\rB\n" = "B" ∧ process_carriage_return "A\rB\n" ≠ "B\n" := by
  constructor
  · decide
  · decide

/-- C1 amended: carriage-return overwrites collapse to the last write on each
line and interior newlines are preserved, but a trailing newline is not
reproduced in the output: `process_carriage_return "A\rB\n" = "B"` and
`process_carriage_return "progress: 10%\rprogress: 100%\ndone\n" =
"progress: 100%\ndone"`. -/
theorem C1_amended :
    process_carriage_return "A\rB\n" = "B" ∧
    process_carriage_return "progress: 10%\rprogress: 100%\ndone\n" =
      "progress: 100%\ndone" := by
  constructor
  · decide
  · decide

/-- C7: the Line-Render Normalizer is idempotent on every input, and is the
identity on every input containing no carriage return. -/
theorem C7_idempotent (text : String) :
    process_carriage_return (process_carriage_return text) = process_carriage_return text ∧
    (('\r' : Char) ∉ text.data → process_carriage_return text = text) := by
  constructor
  · conv_lhs => rw [process_carriage_return]
    rw [if_pos (pcr_data_no_cr text)]
  · intro h
    rw [process_carriage_return, if_pos h]

/-- C8: a carriage return immediately followed by a newline is a single line
terminator, not an overwrite: `process_carriage_return "A\r\nB" = "A\nB"`. -/
theorem C8_crlf_terminator : process_carriage_return "A\r\nB" = "A\nB" := by decide

/-- C10: for every input text, the output of `process_carriage_return`
contains no carriage-return character. -/
theorem C10_no_cr_in_output (text : String) :
    ('\r' : Char) ∉ (process_carriage_return text).data :=
  pcr_data_no_cr text

/-! ## Execution Engine (tools.py, `_execute_with_pty` and `execute_command`)

The engine's effectful steps are embedded by two devices:

* a `ProcOutcome` parameter describing how the spawned process behaves
  (what the select/read loop would observe): the spawn call raises, the
  wall-clock timeout fires after some chunks were captured, the child runs to
  completion with an exit code, or an exception is raised inside the I/O loop;
* an `Event` trace listing, in program order, the externally visible actions
  the code performs (confirmation callback invoked, spinner started/stopped,
  process spawned/killed, terminal attributes restored, master fd closed).

Python exceptions are embedded as `Except String`: a raised exception is
`Except.error msg` and propagates to the enclosing handler exactly where the
source's `try`/`except`/`finally` structure says it does. -/

/-- Externally visible actions of one `execute_command` call, in program order. -/
inductive Event where
  | confirmInvoked
  | spinnerStarted
  | spinnerStopped
  | processSpawned
  | processKilled
  | terminalRestored
  | masterFdClosed
deriving DecidableEq, Repr

/-- How the spawned process behaves, as observed by the engine's I/O loop. -/
inductive ProcOutcome where
  /-- `subprocess.Popen` raises (e.g. fork failure); `msg` is `str(e)`. -/
  | spawnFailure (msg : String)
  /-- the wall-clock timeout fires; `captured` are the chunks read before the
  cutoff, each already decoded (`data.decode(encoding, errors='replace')`). -/
  | timeout (captured : List String)
  /-- the PTY loop exits through one of its EOF breaks — `os.read` returned
  empty (tools.py line 163) or raised `OSError` (line 165) — with the chunks
  `captured` read before the break.  These breaks leave the `while` loop
  before the `process.poll()` check at line 176, and no `wait()` follows, so
  the child is never reaped: `process.returncode` is still `None` at the
  return.  This is the usual exit for a command whose master fd hits
  end-of-file as the child exits (e.g. a command producing no output). -/
  | eofBreak (captured : List String)
  /-- the loop observes the child's termination through `process.poll()`
  (tools.py line 176), which reaps it and sets `returncode` to the child's
  exit code `exitCode`; the drain loop then collects any remaining output,
  ending with the chunks `captured` in total. -/
  | completed (captured : List String) (exitCode : Int)
  /-- an exception is raised inside the multiplexing loop; `msg` is `str(e)`. -/
  | loopFailure (captured : List String) (msg : String)
deriving DecidableEq, Repr

/-- Execution environment of one call: the host platform branch taken at
tools.py line 256, whether `termios.tcgetattr`/`tty.setraw` succeeded
(tools.py lines 93-98, `old_tty_attrs is not None`), and the process
behaviour. -/
structure ExecEnv where
  isWindows : Bool
  rawModeOk : Bool
  outcome : ProcOutcome
deriving DecidableEq, Repr

/-- The result dictionary of `execute_command` / `_execute_with_pty`.
`return_code` is `Option Int` because Python's `process.returncode` is `None`
until the child has been reaped by `poll()`/`wait()`: the engine's literal
codes appear as `some (-1)`, `some (-2)`, `some (-3)`, the child's exit code
as `some code`, and an unreaped child as `none`. -/
structure ExecResult where
  success : Bool
  output : String
  error : String
  return_code : Option Int
deriving DecidableEq, Repr

/-- Modelled from the spec: the i18n message table (`src/shex/i18n.py` is not
in the source tree); `t("user_cancelled")`, the "user declined" error text. -/
def t_user_cancelled : String := "user declined"

/-- Modelled from the spec: `t("command_timeout", timeout=timeout)`, the
"timed out after N seconds" error text. -/
def t_command_timeout (timeout : Nat) : String :=
  "timed out after " ++ toString timeout ++ " seconds"

/-- The return statement of `_execute_with_pty` after the loop (tools.py,
lines 212-219): `success` is the Python expression
`process.returncode == 0` — which is `False` whenever `returncode` is still
`None` — the output is normalized, the error is empty (stderr is merged into
the pty), and `return_code` is `process.returncode` as it stands, reaped or
not. -/
def ptyReturn (outputData : List String) (returncode : Option Int) : ExecResult :=
  { success := returncode == some 0
    output := process_carriage_return (String.join outputData)
    error := ""
    return_code := returncode }

/-- `_execute_with_pty` (tools.py, lines 74-219).  Program order: open the pty
pair, attempt raw mode (`rawModeOk`), then `subprocess.Popen` at line 100 —
note this call precedes the `try` at line 119, so if it raises, the `finally`
at lines 202-210 (restore terminal attributes, close the master fd) does NOT
run and the exception propagates with no cleanup events.  All other outcomes
pass through the `finally`, so they restore the terminal (when raw mode was
entered) and close the master fd.
* timeout (lines 120-129): `process.kill()`, then return code -2 with the
  normalized partial output and the timeout message;
* EOF break (lines 163/165): the loop exits with the child unreaped, so the
  shared return at lines 212-219 sees `process.returncode = None`;
* poll-detected termination (lines 176-201): the same return sees the child's
  own exit code;
* an exception inside the loop: the `finally` runs, then the exception
  propagates to the caller. -/
def execute_with_pty (command : String) (timeout : Nat) (rawModeOk : Bool)
    (outcome : ProcOutcome) : Except String ExecResult × List Event :=
  let cleanup : List Event :=
    (if rawModeOk then [Event.terminalRestored] else []) ++ [Event.masterFdClosed]
  match outcome with
  | .spawnFailure msg => (Except.error msg, [])
  | .timeout captured =>
      (Except.ok { success := false
                   output := process_carriage_return (String.join captured)
                   error := t_command_timeout timeout
                   return_code := some (-2) },
       [Event.processSpawned, Event.processKilled] ++ cleanup)
  | .eofBreak captured =>
      (Except.ok (ptyReturn captured none),
       [Event.processSpawned] ++ cleanup)
  | .completed captured code =>
      (Except.ok (ptyReturn captured (some code)),
       [Event.processSpawned] ++ cleanup)
  | .loopFailure _captured msg =>
      (Except.error msg, [Event.processSpawned] ++ cleanup)

/-- The body of `execute_command` after the confirmation gate (tools.py,
lines 250-353): start the spinner, then
* on Unix (line 256): run `_execute_with_pty`; a normal result is returned
  after `spinner.stop()`; a propagated exception is caught by the handler at
  lines 345-353, which stops the spinner and returns code -3 with `str(e)`;
* on Windows: spawn with merged stderr (line 278); `TimeoutExpired` (lines
  313-327) kills the process, stops the spinner, joins the reader and returns
  code -2 with the normalized partial output; normal completion (lines
  329-343) returns success = (returncode == 0), normalized output, empty
  error, the child's code; any exception is caught at lines 345-353 → -3. -/
def engineRun (command : String) (timeout : Nat) (env : ExecEnv) (evs0 : List Event) :
    ExecResult × List Event :=
  let evs := evs0 ++ [Event.spinnerStarted]
  if env.isWindows = false then
    match execute_with_pty command timeout env.rawModeOk env.outcome with
    | (Except.ok res, pevs) => (res, evs ++ pevs ++ [Event.spinnerStopped])
    | (Except.error msg, pevs) =>
        ({ success := false, output := "", error := msg, return_code := some (-3) },
         evs ++ pevs ++ [Event.spinnerStopped])
  else
    match env.outcome with
    | .spawnFailure msg =>
        ({ success := false, output := "", error := msg, return_code := some (-3) },
         evs ++ [Event.spinnerStopped])
    | .timeout captured =>
        ({ success := false
           output := process_carriage_return (String.join captured)
           error := t_command_timeout timeout
           return_code := some (-2) },
         evs ++ [Event.processSpawned, Event.processKilled, Event.spinnerStopped])
    | .eofBreak captured =>
        -- This outcome cannot arise on the pipe path: the reader thread
        -- drains stdout to EOF and `process.wait(timeout=timeout)` at
        -- tools.py line 312 then reaps the child, so a Windows run whose
        -- output hits EOF is a `completed` (or `timeout`) outcome.  The arm
        -- exists only for totality and mirrors the PTY loop's EOF return;
        -- no theorem instantiates it on this branch.
        (ptyReturn captured none,
         evs ++ [Event.processSpawned, Event.spinnerStopped])
    | .completed captured code =>
        ({ success := code == 0
           output := process_carriage_return (String.join captured)
           error := ""
           return_code := some code },
         evs ++ [Event.processSpawned, Event.spinnerStopped])
    | .loopFailure _captured msg =>
        ({ success := false, output := "", error := msg, return_code := some (-3) },
         evs ++ [Event.processSpawned, Event.spinnerStopped])

/-- `execute_command` (tools.py, lines 222-353).  The confirmation gate (lines
240-248) runs first: when `is_dangerous` is set and a callback is supplied, it
is invoked with the command text, and a `false` answer returns immediately —
before the spinner is created and before anything is spawned. -/
def execute_command (command : String) (is_dangerous : Bool) (timeout : Nat)
    (confirm_fn : Option (String → Bool)) (env : ExecEnv) : ExecResult × List Event :=
  match is_dangerous, confirm_fn with
  | true, some f =>
      if f command then
        engineRun command timeout env [Event.confirmInvoked]
      else
        ({ success := false, output := "", error := t_user_cancelled,
           return_code := some (-1) },
         [Event.confirmInvoked])
  | true, none => engineRun command timeout env []
  | false, _ => engineRun command timeout env []

/-! ## Claims about the Execution Engine -/

/-- C2: for every command, with `is_dangerous = true` and a confirmation
callback that answers `false`, `execute_command` returns success = false,
return code -1, empty output and the "user declined" error, and neither
spawns a process nor starts the spinner animation. -/
theorem C2_declined_no_spawn (command : String) (timeout : Nat) (env : ExecEnv)
    (f : String → Bool) (h : f command = false) :
    (execute_command command true timeout (some f) env).1 =
      { success := false, output := "", error := t_user_cancelled,
        return_code := some (-1) } ∧
    Event.processSpawned ∉ (execute_command command true timeout (some f) env).2 ∧
    Event.spinnerStarted ∉ (execute_command command true timeout (some f) env).2 := by
  simp [execute_command, h]

/-- C2 witness: the declined-confirmation theorem at the spec's own example,
`execute(command="rm -rf /", dangerous=true, confirm=lambda _: false)`. -/
theorem C2_declined_no_spawn_witness :
    (execute_command "rm -rf /" true 60 (some fun _ => false)
        ⟨false, true, ProcOutcome.completed [] 0⟩).1 =
      { success := false, output := "", error := t_user_cancelled,
        return_code := some (-1) } ∧
    Event.processSpawned ∉ (execute_command "rm -rf /" true 60 (some fun _ => false)
        ⟨false, true, ProcOutcome.completed [] 0⟩).2 ∧
    Event.spinnerStarted ∉ (execute_command "rm -rf /" true 60 (some fun _ => false)
        ⟨false, true, ProcOutcome.completed [] 0⟩).2 :=
  C2_declined_no_spawn "rm -rf /" 60 ⟨false, true, ProcOutcome.completed [] 0⟩
    (fun _ => false) rfl

/-- C3: on both platform paths, a command whose execution exceeds the timeout
yields success = false, return code -2, the timeout error message, and output
equal to the normalization of everything captured before the cutoff; the child
is forcibly killed. -/
theorem C3_timeout_partial_output (command : String) (timeout : Nat)
    (captured : List String) (w raw : Bool) :
    (execute_command command false timeout none ⟨w, raw, ProcOutcome.timeout captured⟩).1 =
      { success := false
        output := process_carriage_return (String.join captured)
        error := t_command_timeout timeout
        return_code := some (-2) } ∧
    Event.processKilled ∈
      (execute_command command false timeout none ⟨w, raw, ProcOutcome.timeout captured⟩).2 := by
  cases w <;> cases raw <;>
    simp [execute_command, engineRun, execute_with_pty]

/-- On the poll-detected branch alone (tools.py line 176 reached with the
child exited), the claim's property does hold on both platform paths:
success exactly when the child exited 0, the child's own exit code verbatim,
the normalized captured text, and an empty error field (merged streams).
This supports — but does not settle — C4: the EOF-break exit below escapes
it. -/
theorem poll_detected_completion_verbatim_code (command : String) (timeout : Nat)
    (captured : List String) (code : Int) (w raw : Bool) :
    (execute_command command false timeout none
        ⟨w, raw, ProcOutcome.completed captured code⟩).1 =
      { success := code == 0
        output := process_carriage_return (String.join captured)
        error := ""
        return_code := some code } ∧
    ((execute_command command false timeout none
        ⟨w, raw, ProcOutcome.completed captured code⟩).1.success = true ↔ code = 0) := by
  refine ⟨?_, ?_⟩
  · cases w <;> cases raw <;>
      simp [execute_command, engineRun, execute_with_pty, ptyReturn]
  · cases w <;> cases raw <;>
      simp [execute_command, engineRun, execute_with_pty, ptyReturn]

/-- C4, evaluating the code at the failing input: run `exit 7` on the PTY
path.  The child exits producing no output, so `select` wakes on the master
fd's end-of-file, `os.read` raises `OSError` and the loop breaks at tools.py
line 165 — before the `process.poll()` check at line 176 — and no `wait()`
follows.  `process.returncode` is therefore still `None` at the return:
the result is success = false with return code `None`, not the child's exit
code 7 that the claim (and the spec's `execute("exit 7")` property) demands;
the child's exit status is lost. -/
theorem C4_eof_break_loses_exit_code :
    (execute_command "exit 7" false 60 none
        ⟨false, true, ProcOutcome.eofBreak []⟩).1 =
      { success := false, output := "", error := "", return_code := none } ∧
    (execute_command "exit 7" false 60 none
        ⟨false, true, ProcOutcome.eofBreak []⟩).1.return_code ≠ some 7 := by
  refine ⟨?_, ?_⟩
  · decide
  · decide

/-- C6: on both platform paths, an engine-level failure — the spawn call
raising, or an unexpected exception inside the I/O loop — is converted at the
boundary of `execute_command` into a result value (the embedding's
`execute_command` is a total function into `ExecResult`, not an `Except`):
success = false, return code -3, and the error field carrying the failure
description. -/
theorem C6_engine_fault_boundary (command : String) (timeout : Nat) (msg : String)
    (captured : List String) (w raw : Bool) :
    (execute_command command false timeout none
        ⟨w, raw, ProcOutcome.spawnFailure msg⟩).1 =
      { success := false, output := "", error := msg, return_code := some (-3) } ∧
    (execute_command command false timeout none
        ⟨w, raw, ProcOutcome.loopFailure captured msg⟩).1 =
      { success := false, output := "", error := msg, return_code := some (-3) } := by
  refine ⟨?_, ?_⟩
  · cases w <;> cases raw <;>
      simp [execute_command, engineRun, execute_with_pty]
  · cases w <;> cases raw <;>
      simp [execute_command, engineRun, execute_with_pty]

/-- C5, evaluating the code at the failing input: `subprocess.Popen`
(tools.py line 100) runs after raw mode is entered (lines 93-98) but before
the `try` at line 119, so when the spawn call raises, the `finally` at lines
202-210 never runs: the saved terminal attributes are not restored and the
master fd is not closed, even though raw mode had been entered
(`rawModeOk = true`).  Every outcome that reaches the loop does restore. -/
theorem C5_spawn_failure_skips_restore :
    (execute_with_pty "sleep 1" 60 true (ProcOutcome.spawnFailure "fork failed")).2 = [] ∧
    Event.terminalRestored ∉
      (execute_with_pty "sleep 1" 60 true (ProcOutcome.spawnFailure "fork failed")).2 ∧
    Event.masterFdClosed ∉
      (execute_with_pty "sleep 1" 60 true (ProcOutcome.spawnFailure "fork failed")).2 ∧
    Event.terminalRestored ∈
      (execute_with_pty "sleep 1" 60 true (ProcOutcome.completed [] 0)).2 ∧
    Event.terminalRestored ∈
      (execute_with_pty "sleep 1" 60 true (ProcOutcome.timeout [])).2 ∧
    Event.terminalRestored ∈
      (execute_with_pty "sleep 1" 60 true (ProcOutcome.loopFailure [] "boom")).2 := by
  refine ⟨rfl, ?_, ?_, ?_, ?_, ?_⟩ <;> decide

/-! ## Status Animation (spinner.py, `Spinner`)

The spinner is shared between the main thread (which calls `stop()` and
`write()`) and one background cadence thread running `_spin()`.  The cadence
thread is embedded as a program counter:

* `checkRunning` — at `while self.running` (spinner.py line 23), an unlocked
  read;
* `drawStep` — inside `with self.lock` (lines 24-30): if the debounce window
  has elapsed it draws a frame and sets `visible`;
* `sleepStep` — at `time.sleep(self.delay)` (line 31);
* `dead` — the thread has left the loop and terminated.

`stop()` (lines 50-61) first runs its locked section — set `running` and
`visible` to false and erase the drawn line — and then joins the thread; the
join is embedded by running cadence steps until the program counter reaches
`dead`, at which point `stop()` returns.  The lock makes the locked sections
atomic with respect to each other, which is exactly what taking each of them
as one step of the state machine models; the unlocked `while self.running`
read is its own step, so the interleaving in which the cadence thread has
passed the check when `stop()` runs is representable. -/

/-- One write to the terminal drawing surface. -/
inductive SpinnerOut where
  /-- the erase sequence `"\r\033[K"`. -/
  | eraseLine
  /-- one animation frame (glyph + message, spinner.py line 28). -/
  | frame
  /-- a pass-through payload written via `Spinner.write`. -/
  | content (s : String)
deriving DecidableEq, Repr

/-- Program counter of the background cadence thread `_spin`. -/
inductive SpinPc where
  | checkRunning
  | drawStep
  | sleepStep
  | dead
deriving DecidableEq, Repr

/-- The shared spinner state plus the cadence thread's program counter and the
sequence of writes made to the drawing surface so far. -/
structure SpinnerState where
  running : Bool
  visible : Bool
  /-- `time.time() - self.last_print_time > 0.1` at the moment of the draw. -/
  debounceElapsed : Bool
  pc : SpinPc
  out : List SpinnerOut
deriving DecidableEq, Repr

namespace Spinner

/-- One step of the cadence thread `_spin` (spinner.py, lines 20-32). -/
def spinStep (s : SpinnerState) : SpinnerState :=
  match s.pc with
  | SpinPc.checkRunning =>
      if s.running then { s with pc := SpinPc.drawStep } else { s with pc := SpinPc.dead }
  | SpinPc.drawStep =>
      if s.debounceElapsed then
        { s with out := s.out ++ [SpinnerOut.frame], visible := true, pc := SpinPc.sleepStep }
      else
        { s with pc := SpinPc.sleepStep }
  | SpinPc.sleepStep => { s with pc := SpinPc.checkRunning }
  | SpinPc.dead => s

/-- `n` consecutive steps of the cadence thread. -/
def runSpin : Nat → SpinnerState → SpinnerState
  | 0, s => s
  | n + 1, s => runSpin n (spinStep s)

/-- The locked section of `Spinner.stop` (spinner.py, lines 52-57): clear
`running` and `visible` and erase the drawn line.  `stop()` then joins the
cadence thread before returning. -/
def stopLocked (s : SpinnerState) : SpinnerState :=
  { s with running := false, visible := false, out := s.out ++ [SpinnerOut.eraseLine] }

/-- `Spinner.write` (spinner.py, lines 63-98): under the lock, return
immediately when `running` is false; otherwise erase the spinner frame if it
is visible, write the payload, and reset the debounce clock. -/
def write (content : String) (s : SpinnerState) : SpinnerState :=
  if s.running = false then s
  else
    let s1 :=
      if s.visible then
        { s with out := s.out ++ [SpinnerOut.eraseLine], visible := false }
      else s
    { s1 with out := s1.out ++ [SpinnerOut.content content], debounceElapsed := false }

end Spinner

/-- The claim's headline property, over the model: from the moment `stop()`
has run its locked section (set `running := false` and erased the line), the
cadence thread appends nothing more to the drawing surface, whatever its
program counter was at that moment and however many steps it still takes. -/
def stopCalledNoMoreWrites : Prop :=
  ∀ (s : SpinnerState) (n : Nat),
    (Spinner.runSpin n (Spinner.stopLocked s)).out = (Spinner.stopLocked s).out

/-- C9 counterexample: the "never writes again once stop has been called"
property fails.  Start the cadence thread just past its unlocked
`while self.running` check (`pc = drawStep`, it read `running = true` at
spinner.py line 23 before `stop()` ran): after `stop()`'s locked section has
erased the line, the thread's in-flight iteration still acquires the lock and
draws one more frame — `_spin` never re-checks `running` inside the locked
block — so the erase is followed by a frame and the drawn line is not clean
when `stop()` returns. -/
theorem C9_counterexample : ¬ stopCalledNoMoreWrites := by
  intro h
  have h1 := h ⟨true, true, true, SpinPc.drawStep, []⟩ 1
  simp [Spinner.runSpin, Spinner.spinStep, Spinner.stopLocked] at h1

/-- C9 amended: once `stop()` has returned — its locked section erased the
line and cleared `running`/`visible`, and its join means the cadence thread is
`dead` — the animation never writes again: a dead cadence thread appends
nothing however many steps are taken, and every `Spinner.write` call made
while `running` is false returns without writing anything.  (An in-flight
cadence iteration that had already passed its `while self.running` check may
still draw one frame between the erase and `stop()`'s return.) -/
theorem C9_amended :
    (∀ (s : SpinnerState) (n : Nat), s.pc = SpinPc.dead → Spinner.runSpin n s = s) ∧
    (∀ (s : SpinnerState) (c : String), s.running = false → Spinner.write c s = s) ∧
    (∀ s : SpinnerState,
      (Spinner.stopLocked s).out = s.out ++ [SpinnerOut.eraseLine] ∧
      (Spinner.stopLocked s).running = false ∧
      (Spinner.stopLocked s).visible = false) := by
  refine ⟨?_, ?_, ?_⟩
  · intro s n h
    induction n generalizing s with
    | zero => rfl
    | succ n ih =>
      have hstep : Spinner.spinStep s = s := by
        unfold Spinner.spinStep
        rw [h]
      rw [Spinner.runSpin, hstep]
      exact ih s h
  · intro s c h
    unfold Spinner.write
    rw [h]
    simp
  · intro s
    exact ⟨rfl, rfl, rfl⟩
